import Mathlib

/-!
Shallow embedding of the scarf query/projection/filter compiler
(`scarf/scarf_document.py` and its helpers in `scarf/tools` and
`scarf/utils`).  MongoDB values and pipeline stages are modelled as
inductive types; Python dicts are ordered association lists with
last-write-wins update semantics; Python exceptions are modelled with
`Except PyErr`; the external document store (only reachable through
`find_ids`) is modelled as an oracle parameter.
-/

namespace Scarf

/-- Python exceptions that the embedded code can raise. -/
inductive PyErr where
  | valueError (msg : String)
  | attributeError (msg : String)
  | keyError (msg : String)
  | typeError (msg : String)
  | indexError (msg : String)
deriving Repr, DecidableEq

/-- MongoDB-style values and expressions (documents are ordered key/value
lists, as Python dicts preserve insertion order). ObjectIds are modelled
as naturals. -/
inductive MValue where
  | oid (n : Nat)
  | str (s : String)
  | int (n : Int)
  | bool (b : Bool)
  | arr (l : List MValue)
  | obj (l : List (String × MValue))

/-- Structural equality test for `MValue` (the nested lists prevent a
derived instance). -/
def MValue.beq : MValue → MValue → Bool
  | .oid a, .oid b => a == b
  | .str a, .str b => a == b
  | .int a, .int b => a == b
  | .bool a, .bool b => a == b
  | .arr [], .arr [] => true
  | .arr (x :: xs), .arr (y :: ys) =>
      MValue.beq x y && MValue.beq (.arr xs) (.arr ys)
  | .obj [], .obj [] => true
  | .obj ((k1, v1) :: r1), .obj ((k2, v2) :: r2) =>
      k1 == k2 && MValue.beq v1 v2 && MValue.beq (.obj r1) (.obj r2)
  | _, _ => false

instance : BEq MValue := ⟨MValue.beq⟩

/-- Association-list lookup (Python `d[k]` / `k in d`). -/
def alookupG {α : Type} (d : List (String × α)) (k : String) : Option α :=
  match d with
  | [] => none
  | kv :: rest => if kv.1 = k then some kv.2 else alookupG rest k

/-- Python dict item assignment `d[k] = v`: replaces in place when the key
exists (keeping its position), appends otherwise. -/
def dictSetG {α : Type} (d : List (String × α)) (k : String) (v : α) :
    List (String × α) :=
  if d.any (fun kv => kv.1 = k) then
    d.map (fun kv => if kv.1 = k then (k, v) else kv)
  else
    d ++ [(k, v)]

/-- Python `d.update(o)`: item assignment for every pair of `o` in order. -/
def dictUpdateG {α : Type} (d o : List (String × α)) : List (String × α) :=
  o.foldl (fun acc kv => dictSetG acc kv.1 kv.2) d

/-- Truthiness of an optional int (`None` and `0` are falsy). -/
def pyTruthyNat : Option Nat → Bool
  | none => false
  | some n => n != 0

/-- Truthiness of an optional list/dict (`None` and empty are falsy). -/
def pyTruthyList {α : Type} : Option (List α) → Bool
  | none => false
  | some l => !l.isEmpty

/-- Python `x or y` for optional lists/dicts (falsy `x` selects `y`). -/
def pyOrOpt {α : Type} (x y : Option (List α)) : Option (List α) :=
  match x with
  | some l => if l.isEmpty then y else some l
  | none => y

/-- The beanie find-operator classes used by `FilterableFieldInfo.operator`
(`beanie.operators.Eq/In/All/GTE/LTE/RegEx`). -/
inductive FOp where
  | eq
  | inOp
  | allOp
  | gte
  | lte
  | regex
deriving Repr, DecidableEq

/-- The MongoDB operator key each beanie operator class renders to. -/
def FOp.mongoName : FOp → String
  | .eq => "$eq"
  | .inOp => "$in"
  | .allOp => "$all"
  | .gte => "$gte"
  | .lte => "$lte"
  | .regex => "$regex"

/-- Applying a beanie operator class to a field and a value:
`Eq(f, v)` renders as the plain document `f: v`; every other operator
renders as `f: (op: v)`. -/
def applyFOp (op : FOp) (k : String) (v : MValue) : List (String × MValue) :=
  match op with
  | .eq => [(k, v)]
  | _ => [(k, MValue.obj [(op.mongoName, v)])]

/-- Membership semantics of a MongoDB `$in` clause on a stored value:
a scalar matches when it is listed, an array field matches when one of
its elements is listed.  An empty list matches nothing. -/
def mvalueInList (x : MValue) (l : List MValue) : Bool :=
  l.contains x ||
    (match x with
     | .arr xs => xs.any (fun e => l.contains e)
     | _ => false)

/-! ### Search-details compilation (`scarf/tools/search_details_compiler.py`) -/

/-- `SearchDetails` from `scarf/utils/dynamic_filtering.py`. -/
structure SearchDetailsE where
  value : String
  caseSensitive : Bool := false
  startsWithValue : Bool := false
deriving Repr, DecidableEq

/-- Characters `re.escape` backslash-escapes (the regex special set). -/
def reSpecialChars : List Char :=
  ['(', ')', '[', ']', '\x7b', '\x7d', '?', '*', '+', '-', '|', '^', '$',
   '\\', '.', '&', '~', '#', ' ', '\t', '\n', '\r', '\x0b', '\x0c']

/-- `re.escape` on a string. -/
def escapeReSpecialCharacters (s : String) : String :=
  String.mk (s.toList.foldr
    (fun c acc => if reSpecialChars.contains c then '\\' :: c :: acc else c :: acc) [])

/-- `compile_search_details_to_pattern`: each detail becomes an escaped,
optionally `^`-anchored, optionally `(?i)`-flagged fragment, and the
fragments are joined as an alternation.  (A single `SearchDetails` value is
normalised to a one-element list before this runs.) -/
def compileSearchDetailsToPattern (searchDetails : List SearchDetailsE) : String :=
  String.intercalate "|" (searchDetails.map (fun sd =>
    let searchValue := escapeReSpecialCharacters sd.value
    let pattern := if sd.startsWithValue then "^" ++ searchValue else searchValue
    if !sd.caseSensitive then "(?i)" ++ pattern else pattern))

/-! ### Dynamic filter compilation (`compile_dynamic_filters`) -/

/-- `FilterableFieldInfo` from `scarf/utils/dynamic_filtering.py`.
The `annotation in [SearchDetails, list[SearchDetails]]` test of
`compile_dynamic_filters` is carried as the `isSearch` flag. -/
structure FFieldInfo where
  field : String
  op : FOp
  isLink : Bool := false
  belongsToLinkedClass : Option String := none
  linkedField : Option String := none
  compileDynamically : Bool := true
  isSearch : Bool := false

/-- A value supplied for one key of the dynamic-filters model
(the result of `getattr(dynamic_filters, filter_key)`). -/
inductive FValue where
  | oid (n : Nat)
  | oidList (l : List Nat)
  | prim (v : MValue)
  | searchD (l : List SearchDetailsE)

/-- Rendering a supplied filter value as a plain MongoDB value. -/
def fvalueToM : FValue → MValue
  | .oid n => .oid n
  | .oidList l => .arr (l.map .oid)
  | .prim v => v
  | .searchD _ => .arr []

/-- The per-key body of the `compile_dynamic_filters` loop
(`scarf_document.py` lines 477-496): computes `new_filter_key` and
`new_filter`.  For a link field the key becomes `field.$id` and a
membership operator (`In`/`All`) degrades to `Eq` when the value is a
single ObjectId or a one-element collection. -/
def compileOneFilter (info : FFieldInfo) (v : FValue) :
    String × List (String × MValue) :=
  if info.isLink then
    let key := info.field ++ ".$id"
    match v with
    | .oid n =>
        if info.op = .inOp ∨ info.op = .allOp then (key, [(key, .oid n)])
        else (key, applyFOp info.op key (.oid n))
    | .oidList l =>
        if (info.op = .inOp ∨ info.op = .allOp) ∧ l.length = 1 then
          (key, [(key, .oid (l.headD 0))])
        else (key, applyFOp info.op key (.arr (l.map .oid)))
    | other => (key, applyFOp info.op key (fvalueToM other))
  else if info.isSearch then
    let pattern := compileSearchDetailsToPattern
      (match v with | .searchD l => l | _ => [])
    (info.field, applyFOp info.op info.field (.str pattern))
  else
    (info.field, applyFOp info.op info.field (fvalueToM v))

/-- Mutable state of the `compile_dynamic_filters` loop: the main filter
dict, the per-linked-class predicate buckets (`filters_on_linked_classes`,
a `defaultdict(dict)`), and `linked_classes_fields`. -/
structure CompSt where
  filters : List (String × MValue)
  buckets : List (String × List (String × MValue))
  linkedFields : List (String × String)

/-- One iteration of the `compile_dynamic_filters` loop
(`scarf_document.py` lines 476-508).  Mirrors the Python exactly,
including the membership test `if new_filter_key in filters` being made
against the MAIN dict while the update targets `filters_to_be_added_to`
(which is the linked-class bucket for cross-collection keys), and the
`dict.update` failure modes (`KeyError` when the bucket lacks the key,
`AttributeError`/`TypeError` when a value is not a dict). -/
def compileStep (infos : List (String × FFieldInfo)) (st : CompSt)
    (entry : String × FValue) : Except PyErr CompSt :=
  match alookupG infos entry.1 with
  | none => .error (.keyError entry.1)
  | some info =>
    let kf := compileOneFilter info entry.2
    let newFilterKey := kf.1
    let newFilter := kf.2
    let st :=
      match info.belongsToLinkedClass with
      | some b =>
          let lf := dictSetG st.linkedFields b ((info.linkedField).getD "None")
          { st with linkedFields := lf }
      | none => st
    if (alookupG st.filters newFilterKey).isSome then
      -- filters_to_be_added_to[new_filter_key].update(new_filter[new_filter_key])
      let sub := (alookupG newFilter newFilterKey).getD (.int 0)
      match info.belongsToLinkedClass with
      | some b =>
        let bucket := (alookupG st.buckets b).getD []
        match alookupG bucket newFilterKey with
        | none => .error (.keyError newFilterKey)
        | some (MValue.obj d) =>
          match sub with
          | MValue.obj d2 =>
              let nb := dictSetG st.buckets b (dictSetG bucket newFilterKey (.obj (dictUpdateG d d2)))
              .ok { st with buckets := nb }
          | _ => .error (.typeError "update argument is not a mapping")
        | some _ => .error (.attributeError "object has no attribute update")
      | none =>
        match alookupG st.filters newFilterKey with
        | some (MValue.obj d) =>
          match sub with
          | MValue.obj d2 =>
              let nf := dictSetG st.filters newFilterKey (.obj (dictUpdateG d d2))
              .ok { st with filters := nf }
          | _ => .error (.typeError "update argument is not a mapping")
        | _ => .error (.attributeError "object has no attribute update")
    else
      match info.belongsToLinkedClass with
      | some b =>
          let nb := dictSetG st.buckets b (dictUpdateG ((alookupG st.buckets b).getD []) newFilter)
          .ok { st with buckets := nb }
      | none => .ok { st with filters := dictUpdateG st.filters newFilter }

/-- `compile_dynamic_filters` (`scarf_document.py` lines 464-516).
`infos` is the merged `__filterable_fields_info__` mapping; `entries` are
the non-`None` items of `dynamic_filters.model_dump` in iteration order;
`store` is the oracle for `linked_class.find_ids(filters)` (the document
store is external).  Keys whose info has `compile_dynamically=False` are
excluded up front; after the loop every accumulated cross-collection
bucket is resolved to an id list and folded into the main predicate as
`In(linked_field.$id, ids)`. -/
def compileDynamicFilters (infos : List (String × FFieldInfo))
    (entries : List (String × FValue))
    (store : String → List (String × MValue) → List Nat) :
    Except PyErr (List (String × MValue)) :=
  let participating := entries.filter (fun e =>
    match alookupG infos e.1 with
    | some i => i.compileDynamically
    | none => true)
  match participating.foldlM (compileStep infos) ⟨[], [], []⟩ with
  | .error e => .error e
  | .ok st =>
    .ok (st.buckets.foldl (fun acc bp =>
      let linkedRecordsIds := store bp.1 bp.2
      let linkedClassesField := (alookupG st.linkedFields bp.1).getD "None"
      dictUpdateG acc
        (applyFOp .inOp (linkedClassesField ++ ".$id")
          (.arr (linkedRecordsIds.map .oid)))) st.filters)

/-! ### Annotation classification and projection values
(`scarf/tools/annotation_simplifier.py`, `dynamic_projection_pipeline_handler.py`) -/

/-- The query-relevant classification of a field's declared type, as
produced by `simplify_special_annotations` (plus `date`, which
`get_projection_value_by_annotation` tests before classifying). -/
inductive Ann where
  | normal
  | date
  | oidA
  | oidListA
  | linkA
  | linkListA
deriving Repr, DecidableEq

/-- A pydantic `FieldInfo` as the projection builder consumes it:
its stored alias and its classified annotation. -/
structure FieldSpec where
  aliasName : String
  ann : Ann
deriving Repr, DecidableEq

/-- `get_projection_value_by_annotation`: the rendered MongoDB value
expression of one field, optionally under a field-reference prefix. -/
def getProjectionValueByAnn (fieldInfo : FieldSpec) (fieldPref : Option String) :
    MValue :=
  let fieldReferer :=
    match fieldPref with
    | some p => "$" ++ p ++ "." ++ fieldInfo.aliasName
    | none => "$" ++ fieldInfo.aliasName
  let fieldIdReferer := fieldReferer ++ ".$id"
  match fieldInfo.ann with
  | .date => .obj [("$dateToString",
      .obj [("format", .str "%Y-%m-%d"), ("date", .str fieldReferer)])]
  | .normal => .str fieldReferer
  | .oidA => .obj [("$toString", .str fieldReferer)]
  | .oidListA => .obj [("$map", .obj
      [("input", .str fieldReferer), ("as", .str "oid"),
       ("in", .obj [("$toString", .str "$$oid")])])]
  | .linkA => .obj [("$toString", .str fieldIdReferer)]
  | .linkListA => .obj [("$map", .obj
      [("input", .str fieldReferer), ("as", .str "link"),
       ("in", .obj [("$toString", .str "$$link.$id")])])]

/-- The schema data of a link target as the projection builder reads it:
collection name, field map, compact-view fields and excluded fields.
(`model_fields` always contains beanie's `revision_id` entry.) -/
structure TargetNode where
  dbName : String
  modelFields : List (String × FieldSpec)
  compactFields : Option (List String) := none
  fieldsToExclude : List String := ["revision_id"]

/-- One entry of `__linked_fields_info__` (`scarf/utils/link_info.py`). -/
structure LinkInfoE where
  fieldName : String
  isList : Bool := false
  target : TargetNode

/-- A schema node (`ScarfDocument` subclass) with the hierarchy-merged
class attributes already resolved. -/
structure Node where
  dbName : String
  modelFields : List (String × FieldSpec)
  linkedFieldsInfo : List LinkInfoE := []
  neverFetchFields : List String := []
  alwaysFetchFields : List String := []
  hasTime : Bool := false
  timeAlias : String := "time"

/-- `get_default_projection_fields`: all model field names minus the
merged excluded set. -/
def getDefaultProjectionFields (target : TargetNode) : List String :=
  (target.modelFields.map (fun p => p.1)).filter
    (fun f => !target.fieldsToExclude.contains f)

/-- `get_projection_pipeline_for_linked_field` (`scarf_document.py` lines
167-219), returning the `$addFields` dict and the excluding `$project`
dict.  `revision_id` is popped from the field map first.  A single desired
field collapses: its rendered value is assigned to the link field name
directly (for a list link, appended element-wise by the `$map`), while two
or more desired fields produce entries keyed by their stored aliases.
Indexing `desired_fields[0]` is a `KeyError`/`IndexError` when the field
is absent or the collection empty. -/
def poppedModelFields (target : TargetNode) : List (String × FieldSpec) :=
  target.modelFields.filter (fun p => p.1 ≠ "revision_id")

/-- The `$project` dict excluding every non-desired field of the link
target (`scarf_document.py` lines 212-217). -/
def linkExclusionProjection (target : TargetNode) (desiredFields : List String)
    (linkedFieldName : String) : List (String × MValue) :=
  (poppedModelFields target).filterMap (fun p =>
    if !desiredFields.contains p.1 then
      some (linkedFieldName ++ "." ++ p.2.aliasName, MValue.int 0)
    else none)

def getProjectionPipelineForLinkedField (target : TargetNode)
    (desiredFields : List String) (linkedFieldName : String)
    (isListOfLinks : Bool) :
    Except PyErr (List (String × MValue) × List (String × MValue)) :=
  let modelFields := poppedModelFields target
  let projectionDict := linkExclusionProjection target desiredFields linkedFieldName
  if isListOfLinks then
    let inExpr : Except PyErr MValue :=
      if desiredFields.length > 1 then
        .ok (.obj (modelFields.filterMap (fun p =>
          if desiredFields.contains p.1 then
            some (p.2.aliasName, getProjectionValueByAnn p.2 (some "$link"))
          else none)))
      else
        match desiredFields with
        | [] => .error (.indexError "list index out of range")
        | d0 :: _ =>
          match alookupG modelFields d0 with
          | none => .error (.keyError d0)
          | some fi => .ok (getProjectionValueByAnn fi (some "$link"))
    match inExpr with
    | .error e => .error e
    | .ok inner =>
      .ok ([(linkedFieldName, .obj [("$map", .obj
        [("input", .str ("$" ++ linkedFieldName)), ("as", .str "link"),
         ("in", inner)])])], projectionDict)
  else
    if desiredFields.length > 1 then
      .ok (modelFields.filterMap (fun p =>
        if desiredFields.contains p.1 then
          some (linkedFieldName ++ "." ++ p.2.aliasName,
            getProjectionValueByAnn p.2 (some linkedFieldName))
        else none), projectionDict)
    else
      match desiredFields with
      | [] => .error (.indexError "list index out of range")
      | d0 :: _ =>
        match alookupG modelFields d0 with
        | none => .error (.keyError d0)
        | some fi =>
          .ok ([(linkedFieldName, getProjectionValueByAnn fi (some linkedFieldName))],
            projectionDict)

/-! ### Pipeline stages and `get_projection_pipeline` -/

/-- MongoDB aggregation stages the compiler emits.  `lookupQ` stands for
the store driver's link-expansion (`$lookup`) stages, carrying the
nesting-depth configuration handed to `find(..., fetch_links=True)`;
`custom` stands for an opaque caller-supplied stage. -/
inductive Stage where
  | matchQ (f : List (String × MValue))
  | sortQ (d : List (String × Int))
  | skipQ (n : Nat)
  | limitQ (n : Nat)
  | sampleQ (n : Nat)
  | addFieldsQ (d : List (String × MValue))
  | projectQ (d : List (String × MValue))
  | groupAllQ (targetField : String)
  | lookupQ (depth : Option Nat) (perField : Option (List (String × Nat)))
  | custom (n : Nat)

/-- The top-level `$project` dict over the desired fields (lines 231-235). -/
def basicProjectionDict (node : Node) (desiredSet : List String) :
    List (String × MValue) :=
  node.modelFields.filterMap (fun p =>
    if desiredSet.contains p.1 then
      some (p.2.aliasName, getProjectionValueByAnn p.2 none)
    else none)

/-- The `fields_to_be_fetched` set (lines 239-242). -/
def fieldsToBeFetchedOf (node : Node) (desiredSet : List String)
    (linksAreFetched ignoreAlwaysAndNeverFetchFields : Bool) : List String :=
  let fetched0 := if linksAreFetched then desiredSet else []
  if ignoreAlwaysAndNeverFetchFields then fetched0
  else
    (fetched0 ++ (desiredSet.filter (fun f =>
        node.alwaysFetchFields.contains f && !fetched0.contains f))).filter
      (fun f => !node.neverFetchFields.contains f)

/-- The link fields processed by the loop of lines 247-262 (fetched and
living in the same database). -/
def relevantLinksOf (node : Node) (fieldsToBeFetched : List String) :
    List LinkInfoE :=
  node.linkedFieldsInfo.filter (fun li =>
    fieldsToBeFetched.contains li.fieldName && node.dbName = li.target.dbName)

/-- The target fields flattened for one link: the compact view if
declared and non-empty, the default projection fields otherwise. -/
def linkFieldsFor (li : LinkInfoE) : List String :=
  match li.target.compactFields with
  | some l => if l.isEmpty then getDefaultProjectionFields li.target else l
  | none => getDefaultProjectionFields li.target

/-- `get_projection_pipeline` (`scarf_document.py` lines 221-269): the
top-level `$project` dict over the desired fields, preceded — when links
are to be fetched — by the flattening `$addFields`/`$project` stages of
every fetched link field that lives in the same database.  Absent desired
field names are silently skipped by the dict comprehension.  The loop also
re-includes each processed link field in the top-level projection
(`projection_dict[link_info.field_name] = 1`). -/
def getProjectionPipeline (node : Node) (desiredFields : List String)
    (linksAreFetched : Bool := true)
    (ignoreAlwaysAndNeverFetchFields : Bool := false) :
    Except PyErr (List Stage) :=
  let desiredSet := desiredFields.dedup
  let projectionDict := basicProjectionDict node desiredSet
  let fieldsToBeFetched := fieldsToBeFetchedOf node desiredSet
    linksAreFetched ignoreAlwaysAndNeverFetchFields
  if fieldsToBeFetched.isEmpty then .ok [Stage.projectQ projectionDict]
  else
    let relevantLinks := relevantLinksOf node fieldsToBeFetched
    match relevantLinks.mapM (fun li =>
        getProjectionPipelineForLinkedField li.target (linkFieldsFor li)
          li.fieldName li.isList) with
    | .error e => .error e
    | .ok linkPipelines =>
      let finalProjectionDict := relevantLinks.foldl
        (fun acc li => dictSetG acc li.fieldName (MValue.int 1)) projectionDict
      let linksFieldsAdditionDict := linkPipelines.foldl
        (fun acc lp => dictUpdateG acc lp.1) []
      let linksProjectionDict := linkPipelines.foldl
        (fun acc lp => dictUpdateG acc lp.2) []
      let headStages :=
        (if linksFieldsAdditionDict.isEmpty then []
         else [Stage.addFieldsQ linksFieldsAdditionDict]) ++
        (if linksProjectionDict.isEmpty then []
         else [Stage.projectQ linksProjectionDict])
      .ok (headStages ++ [Stage.projectQ finalProjectionDict])

/-! ### `get_projection_view` (`scarf/tools/dynamic_projection_view_handler.py`) -/

/-- `get_proper_key` of the view handler. -/
def viewProperKey (useAliases : Bool) (n : String) (al : Option String) : String :=
  if !useAliases then n
  else
    match al with
    | some a => if a.startsWith "_" then n else a
    | none => n

/-- The keys of the `projection_model_fields` dict comprehension: one per
model field matched by name or alias, collapsed per proper key. -/
def viewMatchedKeys (modelFields : List (String × Option String))
    (desiredSet : List String) (useAliases : Bool) : List String :=
  (modelFields.filterMap (fun p =>
    if desiredSet.contains p.1 ||
        (match p.2 with | some a => desiredSet.contains a | none => false) then
      some (viewProperKey useAliases p.1 p.2)
    else none)).dedup

/-- `get_projection_view`, abstracted to the data the error behaviour
depends on: the model's (field name, optional alias) pairs and the desired
names.  Returns the keys of the created view model.  The error is raised
exactly when the number of matched model fields (each matched by name or
alias, plus the `all_fields_as_optional` re-insertion of `id`) differs
from the number of distinct desired names. -/
def getProjectionView (modelFields : List (String × Option String))
    (desiredFields : List String) (allFieldsAsOptional : Bool)
    (useAliases : Bool) : Except PyErr (List String) :=
  if desiredFields.isEmpty then
    .error (.valueError "desired_fields cannot be empty.")
  else
    let desiredSet := desiredFields.dedup
    let matchedKeys := viewMatchedKeys modelFields desiredSet useAliases
    let projectionModelKeys :=
      if allFieldsAsOptional && desiredSet.contains "id" then
        if matchedKeys.contains "id" then matchedKeys else matchedKeys ++ ["id"]
      else matchedKeys
    if projectionModelKeys.length ≠ desiredSet.length then
      .error (.keyError "field(s) does not exist in the model to include in projection view model.")
    else .ok projectionModelKeys

/-! ### Query orchestration (`advanced_find`, `find_ids` helpers) -/

/-- `AdvancedFilters` from `scarf/utils/dynamic_filtering.py`. -/
structure AdvFilters where
  preFetch : List (String × MValue) := []
  postFetch : List (String × MValue) := []

/-- The `filters` argument of `advanced_find`: a plain dict or an
`AdvancedFilters` instance (`None` is modelled at the call site). -/
inductive FiltersArg where
  | dict (d : List (String × MValue))
  | adv (f : AdvFilters)

/-- `asc`/`desc`. -/
inductive SortOrder where
  | asc
  | desc
deriving Repr, DecidableEq

/-- `SORT_VALUE_MAPPER` (`scarf/tools/sort_dict_generator.py`):
pymongo ASCENDING/DESCENDING. -/
def orderVal : SortOrder → Int
  | .asc => 1
  | .desc => -1

/-- The `(cls.time | _id)` sort mapper of `get_sort_pipeline` for the
default/time sort key. -/
def timeSortMapper (node : Node) (o : SortOrder) : List (String × Int) :=
  if node.hasTime then [(node.timeAlias, orderVal o), ("_id", orderVal o)]
  else [("_id", orderVal o)]

/-- `get_sort_pipeline` (`scarf_document.py` lines 312-327): empty when no
order is given or when the order is ascending with no key; the time/id
mapper for a missing or `time` key; a single-key sort otherwise. -/
def getSortPipeline (node : Node) (sortOrder : Option SortOrder)
    (sortKey : Option String) : List Stage :=
  match sortOrder with
  | none => []
  | some o =>
    match sortKey with
    | none =>
      match o with
      | .asc => []
      | .desc => [Stage.sortQ (timeSortMapper node .desc)]
    | some k =>
      if k = "time" then [Stage.sortQ (timeSortMapper node o)]
      else [Stage.sortQ [(k, orderVal o)]]

/-- `get_skip_limit_pipeline`: beanie's `find().skip(s).limit(l)`
aggregation pipeline — a `$skip` stage when `s` is set and non-zero, then
a `$limit` stage when `l` is set and non-zero. -/
def getSkipLimitPipeline (skip limit : Option Nat) : List Stage :=
  (match skip with
   | some n => if n ≠ 0 then [Stage.skipQ n] else []
   | none => []) ++
  (match limit with
   | some n => if n ≠ 0 then [Stage.limitQ n] else []
   | none => [])

/-- `get_random_sample_pipeline`. -/
def getRandomSamplePipeline (count : Nat) : List Stage :=
  [Stage.sampleQ count]

/-- `get_group_all_pipeline`. -/
def getGroupAllPipeline (targetField : String) : List Stage :=
  [Stage.groupAllQ targetField]

/-- Beanie `find(filters).build_aggregation_pipeline()` without link
fetching: a `$match` stage when the filter dict is non-empty. -/
def matchStages (flt : List (String × MValue)) : List Stage :=
  if flt.isEmpty then [] else [Stage.matchQ flt]

/-- The arguments of `advanced_find` (defaults as in the Python
signature). -/
structure AdvArgs where
  filters : Option FiltersArg := none
  sortKey : Option String := none
  sortOrder : Option SortOrder := none
  skip : Option Nat := none
  limit : Option Nat := none
  projectionPipeline : Option (List Stage) := none
  fetchLinks : Bool := false
  nestingDepth : Option Nat := none
  nestingDepthsPerField : Option (List (String × Nat)) := none
  ignoreAlwaysAndNeverFetchFields : Bool := false
  randomSample : Bool := false

/-- The `special_nesting_depths_per_field` map of `advanced_find`
(lines 375-377): `None` when the caller opts out, otherwise never-fetch
fields at depth 0, then always-fetch fields at depth 1, overridden by the
caller-supplied per-field map. -/
def specialNestingDepthsPerField (node : Node) (a : AdvArgs) :
    Option (List (String × Nat)) :=
  if a.ignoreAlwaysAndNeverFetchFields then none
  else some (dictUpdateG
    (dictUpdateG (node.neverFetchFields.map (fun f => (f, 0)))
      (node.alwaysFetchFields.map (fun f => (f, 1))))
    (a.nestingDepthsPerField.getD []))

/-- The positioning stages of `advanced_find`/`find_ids`
(`specify_desired_records_pipeline`, lines 369-373): sort, then
skip/limit (limit suppressed under sampling), then the `$sample` stage
when sampling. -/
def positioningStages (node : Node) (a : AdvArgs) : List Stage :=
  getSortPipeline node a.sortOrder a.sortKey ++
  getSkipLimitPipeline a.skip (if a.randomSample then none else a.limit) ++
  (if a.randomSample then getRandomSamplePipeline (a.limit.getD 0) else [])

/-- The link-expansion fragment of the general path (`fetch_pipeline`,
lines 390-395):
`find(post_fetch, fetch_links=True, nesting_depth=..., nesting_depths_per_field=...)`
builds the driver's lookup stages followed by the post-fetch `$match`. -/
def linkExpansionStages (node : Node) (a : AdvArgs) (f : AdvFilters) :
    List Stage :=
  [Stage.lookupQ (if a.fetchLinks then a.nestingDepth else some 0)
    (pyOrOpt (specialNestingDepthsPerField node a) a.nestingDepthsPerField)] ++
  matchStages f.postFetch

/-- The pipeline-building tail of `advanced_find` (lines 369-408), after
the precondition checks, with the normalised filters (still possibly
`None`, whose attribute accesses raise). -/
def advancedFindBuild (node : Node) (a : AdvArgs) (projPipe : List Stage)
    (filtersN : Option AdvFilters) : Except PyErr (List Stage) :=
  if !a.fetchLinks && !(pyTruthyList (specialNestingDepthsPerField node a)) then
    match filtersN with
    | none => .error (.attributeError "NoneType object has no attribute pre_fetch")
    | some f =>
        .ok (matchStages (dictUpdateG f.preFetch f.postFetch) ++
          positioningStages node a ++ projPipe)
  else
    match filtersN with
    | none => .error (.attributeError "NoneType object has no attribute pre_fetch")
    | some f =>
      let preFetchPipeline := matchStages f.preFetch
      let finalPipeline :=
        if !f.postFetch.isEmpty then
          preFetchPipeline ++ linkExpansionStages node a f ++
            positioningStages node a ++ projPipe
        else
          preFetchPipeline ++ positioningStages node a ++
            linkExpansionStages node a f ++ projPipe
      .ok finalPipeline

/-- `advanced_find` (`scarf_document.py` lines 343-408), returning the
assembled aggregation pipeline (query execution is external).  The
sampling precondition is checked first; then `projection_pipeline or []`;
then the dict-to-`AdvancedFilters` normalisation; then the post-fetch
precondition, whose `filters.post_fetch` access dereferences a `None`
filters argument unless `fetch_links` short-circuits the conjunction. -/
def advancedFind (node : Node) (a : AdvArgs) : Except PyErr (List Stage) :=
  if a.randomSample && !(pyTruthyNat a.limit) then
    .error (.valueError "limit arg must be passed when random_sample is True.")
  else
    let projPipe := (a.projectionPipeline.getD [])
    let filtersN : Option AdvFilters :=
      match a.filters with
      | some (.dict d) => some { preFetch := d }
      | some (.adv f) => some f
      | none => none
    if !a.fetchLinks then
      match filtersN with
      | none => .error (.attributeError "NoneType object has no attribute post_fetch")
      | some f =>
        if !f.postFetch.isEmpty then
          .error (.valueError "AdvancedFilters.post_fetch must be empty when fetch_links is False.")
        else advancedFindBuild node a projPipe (some f)
    else advancedFindBuild node a projPipe filtersN

/-! ### Existence checks (`check_records_existence`, `validate_records_existence`) -/

/-- The `record_id_or_list` argument: a single ObjectId or a
list/set of ObjectIds. -/
inductive IdInput where
  | one (n : Nat)
  | many (l : List Nat)

/-- Truthiness of the input (an ObjectId is truthy; a collection is
truthy when non-empty). -/
def pyTruthyIdInput : IdInput → Bool
  | .one _ => true
  | .many l => !l.isEmpty

/-- `get_set_of_object_ids` (`scarf/tools/set_of_object_id_ensurer.py`):
normalise to a duplicate-free id collection. -/
def getSetOfObjectIds : IdInput → List Nat
  | .one n => [n]
  | .many l => l.dedup

/-- The filter dict `check_records_existence` hands to `find_ids`: the
caller's extra filters updated with `In(cls.id, records_list)`. -/
def existenceFilters (filters : List (String × MValue)) (recordsList : List Nat) :
    List (String × MValue) :=
  dictUpdateG filters (applyFOp .inOp "_id" (.arr (recordsList.map .oid)))

/-- `check_records_existence` (`scarf_document.py` lines 518-548).
`findIdsFn` is the oracle for `cls.find_ids` (the id list the store
returns for a filter dict).  Returns the missing ids, or `none` when
nothing is missing (including falsy input). -/
def checkRecordsExistence (recordIdOrList : Option IdInput)
    (filters : List (String × MValue))
    (findIdsFn : List (String × MValue) → List Nat) : Option (List Nat) :=
  match recordIdOrList with
  | none => none
  | some inp =>
    if !pyTruthyIdInput inp then none
    else
      let recordsList := getSetOfObjectIds inp
      let foundRecordsIds := (findIdsFn (existenceFilters filters recordsList)).dedup
      if !foundRecordsIds.isEmpty then
        let missingRecords := recordsList.filter
          (fun x => !foundRecordsIds.contains x)
        if missingRecords.isEmpty then none else some missingRecords
      else some recordsList

/-- `validate_records_existence` (lines 550-567): raises `ValueError`
carrying the missing ids when `check_records_existence` reports any. -/
def validateRecordsExistence (recordIdOrList : Option IdInput)
    (filters : List (String × MValue))
    (findIdsFn : List (String × MValue) → List Nat) : Except (List Nat) Unit :=
  match checkRecordsExistence recordIdOrList filters findIdsFn with
  | some missingRecords =>
      if missingRecords.isEmpty then .ok () else .error missingRecords
  | none => .ok ()

/-! ## Helper lemmas -/

theorem applyFOp_single (op : FOp) (k : String) (v : MValue) :
    ∃ val, applyFOp op k v = [(k, val)] := by
  cases op <;> exact ⟨_, rfl⟩

/-- Every per-key compiled predicate is a one-entry dict keyed by its
`new_filter_key`. -/
theorem compileOneFilter_single (info : FFieldInfo) (v : FValue) :
    ∃ val, (compileOneFilter info v).2 = [((compileOneFilter info v).1, val)] := by
  unfold compileOneFilter
  cases v <;> dsimp only <;> split_ifs <;>
    first
    | exact ⟨_, rfl⟩
    | apply applyFOp_single

theorem dictSetG_nil {α : Type} (k : String) (v : α) :
    dictSetG [] k v = [(k, v)] := by
  simp [dictSetG]

theorem dictUpdateG_nil_single {α : Type} (k : String) (v : α) :
    dictUpdateG [] [(k, v)] = [(k, v)] := by
  simp [dictUpdateG, dictSetG]

theorem mvalueInList_nil (x : MValue) : mvalueInList x [] = false := by
  cases x <;> simp [mvalueInList, List.contains]

/-! ## Claims about `compile_dynamic_filters` -/

/-- Claim C2: for a filter key marked as a link whose configured operator
is the membership operator `In` or `All`, a single supplied identifier or
a one-element identifier collection compiles to an equality match on the
link's identifier path, while a multi-element collection compiles to the
configured membership operator applied to the identifier path. -/
theorem compile_link_membership_degrade (info : FFieldInfo)
    (hlink : info.isLink = true)
    (hop : info.op = FOp.inOp ∨ info.op = FOp.allOp) :
    (∀ n : Nat, compileOneFilter info (FValue.oid n) =
        (info.field ++ ".$id", [(info.field ++ ".$id", MValue.oid n)])) ∧
    (∀ a : Nat, compileOneFilter info (FValue.oidList [a]) =
        (info.field ++ ".$id", [(info.field ++ ".$id", MValue.oid a)])) ∧
    (∀ l : List Nat, 2 ≤ l.length →
        compileOneFilter info (FValue.oidList l) =
          (info.field ++ ".$id",
            [(info.field ++ ".$id",
              MValue.obj [(info.op.mongoName, MValue.arr (l.map MValue.oid))])])) := by
  refine ⟨fun n => ?_, fun a => ?_, fun l hl => ?_⟩
  · simp [compileOneFilter, hlink, hop]
  · simp [compileOneFilter, hlink, hop]
  · have hne : l.length ≠ 1 := by omega
    rcases hop with h | h <;>
      simp [compileOneFilter, hlink, h, hne, applyFOp]

/-- Witness for C2 at a concrete link filter configured with `In`. -/
def c2info : FFieldInfo := { field := "owner", op := FOp.inOp, isLink := true }

theorem compile_link_membership_degrade_witness :
    c2info.isLink = true ∧ (c2info.op = FOp.inOp ∨ c2info.op = FOp.allOp) ∧
    compileOneFilter c2info (FValue.oid 5) =
      ("owner.$id", [("owner.$id", MValue.oid 5)]) ∧
    compileOneFilter c2info (FValue.oidList [5]) =
      ("owner.$id", [("owner.$id", MValue.oid 5)]) ∧
    compileOneFilter c2info (FValue.oidList [5, 6]) =
      ("owner.$id", [("owner.$id",
        MValue.obj [("$in", MValue.arr [MValue.oid 5, MValue.oid 6])])]) := by
  have h := compile_link_membership_degrade c2info rfl (Or.inl rfl)
  refine ⟨rfl, Or.inl rfl, h.1 5, h.2.1 5, ?_⟩
  simpa using h.2.2 [5, 6] (by simp)

/-- Claim C4: a filter key belonging to a different linked collection is
not added to the main predicate; after the loop the accumulated bucket is
resolved against that collection's id list and folded into the main
predicate as an `identifier is one of the resolved ids` membership clause
on the linking field's id path; and an empty resolved id list yields an
`$in` clause that matches no value. -/
theorem compile_cross_collection_fold
    (infos : List (String × FFieldInfo)) (k : String) (v : FValue)
    (info : FFieldInfo) (b lf : String)
    (store : String → List (String × MValue) → List Nat)
    (hinfo : alookupG infos k = some info)
    (hb : info.belongsToLinkedClass = some b)
    (hlf : info.linkedField = some lf)
    (hdyn : info.compileDynamically = true) :
    compileDynamicFilters infos [(k, v)] store =
      .ok [(lf ++ ".$id", MValue.obj [("$in",
        MValue.arr ((store b (compileOneFilter info v).2).map MValue.oid))])] ∧
    (∀ x : MValue, mvalueInList x [] = false) := by
  obtain ⟨val, hval⟩ := compileOneFilter_single info v
  refine ⟨?_, mvalueInList_nil⟩
  simp [compileDynamicFilters, compileStep, hinfo, hdyn, hb, hlf, hval,
    alookupG, dictUpdateG_nil_single, dictSetG_nil, applyFOp, dictUpdateG,
    dictSetG, FOp.mongoName]

/-- Witness data for C4: one filter key that belongs to linked class `B`. -/
def c4info : FFieldInfo :=
  { field := "name"
    op := FOp.eq
    belongsToLinkedClass := some "B"
    linkedField := some "author" }

def c4infos : List (String × FFieldInfo) := [("author_name", c4info)]

theorem compile_cross_collection_fold_witness :
    alookupG c4infos "author_name" = some c4info ∧
    compileDynamicFilters c4infos [("author_name", FValue.prim (.str "kim"))]
        (fun _ _ => []) =
      .ok [("author.$id", MValue.obj [("$in", MValue.arr [])])] ∧
    mvalueInList (MValue.oid 3) [] = false := by
  have h := compile_cross_collection_fold c4infos "author_name"
    (FValue.prim (.str "kim")) c4info
    "B" "author" (fun _ _ => []) (by rfl) (by rfl) (by rfl) (by rfl)
  exact ⟨by rfl, by simpa using h.1, h.2 (MValue.oid 3)⟩

/-- The C5 scenario: two filter keys of the same linked class `B`, both
compiling to the stored key `age` (a lower and an upper bound). -/
def c5infoMin : FFieldInfo :=
  { field := "age"
    op := FOp.gte
    belongsToLinkedClass := some "B"
    linkedField := some "owner" }

def c5infoMax : FFieldInfo :=
  { field := "age"
    op := FOp.lte
    belongsToLinkedClass := some "B"
    linkedField := some "owner" }

def c5infos : List (String × FFieldInfo) :=
  [("min_age", c5infoMin), ("max_age", c5infoMax)]

def c5entries : List (String × FValue) :=
  [("min_age", FValue.prim (.int 30)), ("max_age", FValue.prim (.int 40))]

/-- A store whose collection `B` answers with id 7 exactly when queried
with the upper-bound-only predicate — i.e. when the lower bound was lost. -/
def c5store : String → List (String × MValue) → List Nat :=
  fun _ f =>
    match f with
    | [("age", MValue.obj [("$lte", MValue.int 40)])] => [7]
    | _ => []

/-- Claim C5 (code bug): the membership test on line 504 is made against
the MAIN filter dict while the update targets `filters_to_be_added_to`,
so two same-key predicates accumulated in a linked-class bucket take the
`else` branch twice and `dict.update` overwrites the earlier entry.  The
compiled result embeds the id answered for the `$lte`-only bucket — the
`$gte` sub-condition never reaches the store. -/
theorem compile_same_key_linked_bucket_overwrites :
    compileDynamicFilters c5infos c5entries c5store =
      .ok [("owner.$id", MValue.obj [("$in", MValue.arr [MValue.oid 7])])] := by
  rfl

/-- Claim C9: `compile_dynamic_filters` is deterministic in its input and
the observable store contents: two stores that answer every id lookup
identically produce identical compiled predicates, and in particular
compiling the same dumped filter entries twice yields structurally equal
results (the compiler keeps no hidden state). -/
theorem compile_dynamic_filters_deterministic
    (infos : List (String × FFieldInfo)) (entries : List (String × FValue))
    (s1 s2 : String → List (String × MValue) → List Nat)
    (hstore : ∀ c f, s1 c f = s2 c f) :
    compileDynamicFilters infos entries s1 =
      compileDynamicFilters infos entries s2 := by
  have hs : s1 = s2 := funext fun c => funext fun f => hstore c f
  rw [hs]

def c9storeA : String → List (String × MValue) → List Nat := fun _ _ => []

def c9storeB : String → List (String × MValue) → List Nat :=
  fun _ f => (f.filter (fun _ => false)).map (fun _ => 0)

theorem compile_dynamic_filters_deterministic_witness :
    compileDynamicFilters c4infos [("author_name", FValue.prim (.str "kim"))]
        c9storeA =
      compileDynamicFilters c4infos [("author_name", FValue.prim (.str "kim"))]
        c9storeB := by
  exact compile_dynamic_filters_deterministic c4infos
    [("author_name", FValue.prim (.str "kim"))] c9storeA c9storeB
    (fun c f => by simp [c9storeA, c9storeB])

/-! ## Claims about `advanced_find` -/

/-- `advancedFindBuild` with a non-`None` filters value never raises. -/
theorem advancedFindBuild_ok (node : Node) (a : AdvArgs) (p : List Stage)
    (f : AdvFilters) :
    ∃ stages, advancedFindBuild node a p (some f) = .ok stages := by
  unfold advancedFindBuild
  split <;> exact ⟨_, rfl⟩

/-- `advancedFindBuild` with a `None` filters value raises an
`AttributeError` at the `filters.pre_fetch` access on both paths. -/
theorem advancedFindBuild_none_error (node : Node) (a : AdvArgs) (p : List Stage) :
    advancedFindBuild node a p none =
      .error (.attributeError "NoneType object has no attribute pre_fetch") := by
  unfold advancedFindBuild
  split <;> rfl

/-- Claim C1: on the general path of `advanced_find` (link fetching
enabled or per-field nesting overrides present) the assembled pipeline is
pre-fetch filter stages, then link-expansion stages, then positioning
stages when the post-fetch predicates are non-empty, and pre-fetch filter
stages, then positioning stages, then link-expansion stages when they are
empty; the caller-supplied projection stages are appended last in both
cases. -/
theorem advanced_find_general_path_stage_order (node : Node) (a : AdvArgs)
    (f : AdvFilters)
    (hf : a.filters = some (FiltersArg.adv f))
    (hgen : a.fetchLinks = true ∨
      pyTruthyList (specialNestingDepthsPerField node a) = true)
    (hsample : a.randomSample = true → pyTruthyNat a.limit = true)
    (hpost : f.postFetch = [] ∨ a.fetchLinks = true) :
    (f.postFetch ≠ [] →
      advancedFind node a = .ok (matchStages f.preFetch ++
        linkExpansionStages node a f ++ positioningStages node a ++
        (a.projectionPipeline.getD []))) ∧
    (f.postFetch = [] →
      advancedFind node a = .ok (matchStages f.preFetch ++
        positioningStages node a ++ linkExpansionStages node a f ++
        (a.projectionPipeline.getD []))) := by
  have hc1 : (a.randomSample && !(pyTruthyNat a.limit)) = false := by
    cases hr : a.randomSample
    · rfl
    · simp [hsample hr]
  cases hfl : a.fetchLinks with
  | true =>
    constructor <;> intro hp <;>
      simp [advancedFind, hc1, hf, hfl, advancedFindBuild, hp]
  | false =>
    have hpe : f.postFetch = [] := by
      rcases hpost with h | h
      · exact h
      · rw [hfl] at h; cases h
    have hsp : pyTruthyList (specialNestingDepthsPerField node a) = true := by
      rcases hgen with h | h
      · rw [hfl] at h; cases h
      · exact h
    constructor
    · intro hp; exact absurd hpe hp
    · intro _
      simp [advancedFind, hc1, hf, hfl, advancedFindBuild, hpe, hsp]

def c1node : Node :=
  { dbName := "db"
    modelFields := [] }

def c1filters : AdvFilters :=
  { preFetch := [("a", MValue.int 1)]
    postFetch := [("b", MValue.int 2)] }

def c1filtersNoPost : AdvFilters :=
  { preFetch := [("a", MValue.int 1)] }

def c1args : AdvArgs :=
  { filters := some (FiltersArg.adv c1filters)
    fetchLinks := true }

def c1argsNoPost : AdvArgs :=
  { filters := some (FiltersArg.adv c1filtersNoPost)
    fetchLinks := true }

theorem advanced_find_general_path_stage_order_witness :
    advancedFind c1node c1args = .ok
      [Stage.matchQ [("a", MValue.int 1)],
       Stage.lookupQ none none,
       Stage.matchQ [("b", MValue.int 2)]] ∧
    advancedFind c1node c1argsNoPost = .ok
      [Stage.matchQ [("a", MValue.int 1)],
       Stage.lookupQ none none] := by
  have h1 := advanced_find_general_path_stage_order c1node c1args c1filters
    rfl (Or.inl rfl) (fun hr => nomatch hr) (Or.inr rfl)
  have h2 := advanced_find_general_path_stage_order c1node c1argsNoPost
    c1filtersNoPost rfl (Or.inl rfl) (fun hr => nomatch hr) (Or.inr rfl)
  exact ⟨(h1.1 (by simp [c1filters])).trans (by rfl), (h2.2 rfl).trans (by rfl)⟩

/-- The post-fetch predicates carried by a non-`None` `filters` argument
(after the dict normalisation of line 364). -/
def postFetchOfArg : FiltersArg → List (String × MValue)
  | .dict _ => []
  | .adv f => f.postFetch

/-- Claim C8: `advanced_find` raises `ValueError` (the invalid-argument
error), before any pipeline fragment is turned into a query, exactly when
sampling is requested without a truthy limit, or when the filters carry
non-empty post-fetch predicates while link fetching is disabled. -/
theorem advanced_find_precondition_errors (node : Node) (a : AdvArgs)
    (fa : FiltersArg) (hf : a.filters = some fa) :
    (∃ msg, advancedFind node a = .error (PyErr.valueError msg)) ↔
      ((a.randomSample = true ∧ pyTruthyNat a.limit = false) ∨
       (a.fetchLinks = false ∧ postFetchOfArg fa ≠ [])) := by
  cases fa with
  | dict d =>
    obtain ⟨st1, hst1⟩ := advancedFindBuild_ok node a
      (a.projectionPipeline.getD []) { preFetch := d }
    cases hr : a.randomSample <;> cases hl : pyTruthyNat a.limit <;>
      cases hfl : a.fetchLinks <;>
      simp_all [advancedFind, postFetchOfArg]
  | adv g =>
    obtain ⟨st1, hst1⟩ := advancedFindBuild_ok node a
      (a.projectionPipeline.getD []) g
    cases hr : a.randomSample <;> cases hl : pyTruthyNat a.limit <;>
      cases hfl : a.fetchLinks <;> cases hpe : g.postFetch <;>
      simp_all [advancedFind, postFetchOfArg]

def c8node : Node :=
  { dbName := "db"
    modelFields := [] }

def c8filters : AdvFilters :=
  { postFetch := [("b", MValue.int 2)] }

def c8args : AdvArgs :=
  { filters := some (FiltersArg.adv c8filters)
    fetchLinks := false }

theorem advanced_find_precondition_errors_witness :
    c8args.filters = some (FiltersArg.adv c8filters) ∧
    (∃ msg, advancedFind c8node c8args = .error (PyErr.valueError msg)) := by
  refine ⟨rfl, ?_⟩
  exact (advanced_find_precondition_errors c8node c8args
    (FiltersArg.adv c8filters) rfl).mpr (Or.inr ⟨rfl, by simp [postFetchOfArg, c8filters]⟩)

def c10node : Node :=
  { dbName := "db"
    modelFields := [] }

def c10args : AdvArgs := { fetchLinks := true }

def c10argsDefault : AdvArgs := {}

/-- Claim C10 counterexample: a call with `filters=None` and
`fetch_links=True` does NOT fail at the post-fetch precondition check
(the conjunction `not fetch_links and filters.post_fetch` short-circuits
before dereferencing `None`); the `AttributeError` arises only later, at
the `filters.pre_fetch` access while the general-path pipeline is being
assembled. -/
theorem advanced_find_none_filters_counterexample :
    advancedFind c10node c10args =
      .error (.attributeError "NoneType object has no attribute pre_fetch") := by
  rfl

/-- Claim C10 (amended): with `filters` omitted/`None`, the call always
fails with an `AttributeError` (never succeeds) once the sampling
precondition passes: at the post-fetch precondition check's
`filters.post_fetch` dereference when `fetch_links` is false, and at the
`filters.pre_fetch` access during general-path pipeline construction when
`fetch_links` is true. -/
theorem advanced_find_none_filters_requires (node : Node) (a : AdvArgs)
    (hf : a.filters = none) :
    ((a.randomSample = true → pyTruthyNat a.limit = true) →
      (a.fetchLinks = false →
        advancedFind node a =
          .error (.attributeError "NoneType object has no attribute post_fetch")) ∧
      (a.fetchLinks = true →
        advancedFind node a =
          .error (.attributeError "NoneType object has no attribute pre_fetch"))) ∧
    (∀ stages, advancedFind node a ≠ .ok stages) := by
  constructor
  · intro hs
    have hc1 : (a.randomSample && !(pyTruthyNat a.limit)) = false := by
      cases hr : a.randomSample
      · rfl
      · simp [hs hr]
    constructor <;> intro hfl <;>
      simp [advancedFind, hf, hfl, hc1, advancedFindBuild_none_error]
  · intro stages
    cases hr : a.randomSample <;> cases hfl : a.fetchLinks <;>
      simp [advancedFind, hf, hfl, hr, advancedFindBuild_none_error] <;>
      split <;> simp [advancedFindBuild_none_error]

theorem advanced_find_none_filters_requires_witness :
    (advancedFind c10node c10argsDefault =
      .error (.attributeError "NoneType object has no attribute post_fetch")) ∧
    (advancedFind c10node c10args =
      .error (.attributeError "NoneType object has no attribute pre_fetch")) ∧
    (∀ stages, advancedFind c10node c10args ≠ .ok stages) := by
  have h1 := advanced_find_none_filters_requires c10node c10argsDefault rfl
  have h2 := advanced_find_none_filters_requires c10node c10args rfl
  exact ⟨(h1.1 (fun hr => nomatch hr)).1 rfl,
    (h2.1 (fun hr => nomatch hr)).2 rfl, h2.2⟩

/-! ## Claims about the projection builders -/

/-- Claim C3: for a link field selected for expansion, projecting exactly
one desired (non-identifier) target field maps the link field name
directly to that field's rendered value — not to a one-key object — while
two or more desired fields map to entries keyed by the fields' stored
aliases; a list-cardinality link applies the same rule element-wise
inside the `$map` expression. -/
theorem linked_field_projection_collapsing (target : TargetNode)
    (linkedName : String) (d0 : String) (fs : FieldSpec)
    (hd : alookupG (poppedModelFields target) d0 = some fs)
    (hnid : d0 ≠ "id") :
    (getProjectionPipelineForLinkedField target [d0] linkedName false =
      .ok ([(linkedName, getProjectionValueByAnn fs (some linkedName))],
        linkExclusionProjection target [d0] linkedName)) ∧
    (getProjectionPipelineForLinkedField target [d0] linkedName true =
      .ok ([(linkedName, MValue.obj [("$map", MValue.obj
        [("input", MValue.str ("$" ++ linkedName)), ("as", MValue.str "link"),
         ("in", getProjectionValueByAnn fs (some "$link"))])])],
        linkExclusionProjection target [d0] linkedName)) ∧
    (∀ desired : List String, 1 < desired.length →
      getProjectionPipelineForLinkedField target desired linkedName false =
        .ok ((poppedModelFields target).filterMap
          (fun p => if desired.contains p.1 then
            some (linkedName ++ "." ++ p.2.aliasName,
              getProjectionValueByAnn p.2 (some linkedName))
          else none),
          linkExclusionProjection target desired linkedName)) ∧
    (∀ desired : List String, 1 < desired.length →
      getProjectionPipelineForLinkedField target desired linkedName true =
        .ok ([(linkedName, MValue.obj [("$map", MValue.obj
          [("input", MValue.str ("$" ++ linkedName)), ("as", MValue.str "link"),
           ("in", MValue.obj
             ((poppedModelFields target).filterMap
               (fun p => if desired.contains p.1 then
                 some (p.2.aliasName, getProjectionValueByAnn p.2 (some "$link"))
               else none)))])])],
          linkExclusionProjection target desired linkedName)) := by
  refine ⟨?_, ?_, fun desired hlen => ?_, fun desired hlen => ?_⟩
  · simp [getProjectionPipelineForLinkedField, hd]
  · simp [getProjectionPipelineForLinkedField, hd]
  · simp [getProjectionPipelineForLinkedField, hlen]
  · simp [getProjectionPipelineForLinkedField, hlen]

/-- Witness data for C3: a target node with fields id/name/email. -/
def c3target : TargetNode :=
  { dbName := "db"
    modelFields :=
      [("id", ⟨"_id", Ann.oidA⟩), ("name", ⟨"name", Ann.normal⟩),
       ("email", ⟨"email", Ann.normal⟩), ("revision_id", ⟨"revision_id", Ann.oidA⟩)] }

theorem linked_field_projection_collapsing_witness :
    getProjectionPipelineForLinkedField c3target ["name"] "owner" false =
      .ok ([("owner", MValue.str "$owner.name")],
        [("owner._id", MValue.int 0), ("owner.email", MValue.int 0)]) ∧
    getProjectionPipelineForLinkedField c3target ["name"] "owner" true =
      .ok ([("owner", MValue.obj [("$map", MValue.obj
        [("input", MValue.str "$owner"), ("as", MValue.str "link"),
         ("in", MValue.str "$$link.name")])])],
        [("owner._id", MValue.int 0), ("owner.email", MValue.int 0)]) ∧
    getProjectionPipelineForLinkedField c3target ["name", "email"] "owner" false =
      .ok ([("owner.name", MValue.str "$owner.name"),
            ("owner.email", MValue.str "$owner.email")],
        [("owner._id", MValue.int 0)]) := by
  have h := linked_field_projection_collapsing c3target "owner" "name"
    ⟨"name", Ann.normal⟩ (by rfl) (by decide)
  exact ⟨h.1.trans (by rfl), (h.2.1).trans (by rfl),
    (h.2.2.1 ["name", "email"] (by decide)).trans (by rfl)⟩

/-! ## Claim C6: projection keys and absent-field errors -/

/-- A projection key that corresponds to a declared field: the stored
alias of a model field, or the name of a declared link field (re-included
by `projection_dict[link_info.field_name] = 1`). -/
def declaredProjKey (node : Node) (k : String) : Prop :=
  (∃ p, p ∈ node.modelFields ∧ p.2.aliasName = k) ∨
  (∃ li, li ∈ node.linkedFieldsInfo ∧ li.fieldName = k)

theorem basicProjectionDict_keys (node : Node) (desiredSet : List String)
    (kv : String × MValue) (h : kv ∈ basicProjectionDict node desiredSet) :
    ∃ p, p ∈ node.modelFields ∧ p.2.aliasName = kv.1 := by
  unfold basicProjectionDict at h
  obtain ⟨p, hp, hf⟩ := List.mem_filterMap.mp h
  by_cases hc : desiredSet.contains p.1 = true
  · rw [if_pos hc] at hf
    cases hf
    exact ⟨p, hp, rfl⟩
  · rw [if_neg hc] at hf
    cases hf

theorem dictSetG_keys {α : Type} (d : List (String × α)) (k : String) (v : α)
    (k' : String) (h : k' ∈ (dictSetG d k v).map Prod.fst) :
    k' = k ∨ k' ∈ d.map Prod.fst := by
  unfold dictSetG at h
  split at h
  · obtain ⟨x, hx, hfx⟩ := List.mem_map.mp h
    obtain ⟨kv, hkv, rfl⟩ := List.mem_map.mp hx
    by_cases hk : kv.1 = k
    · rw [if_pos hk] at hfx
      exact Or.inl hfx.symm
    · rw [if_neg hk] at hfx
      exact Or.inr (hfx ▸ List.mem_map_of_mem Prod.fst hkv)
  · rw [List.map_append] at h
    rcases List.mem_append.mp h with h1 | h2
    · exact Or.inr h1
    · simp at h2
      exact Or.inl h2

theorem foldl_dictSetG_keys (l : List LinkInfoE) (d0 : List (String × MValue))
    (k' : String)
    (h : k' ∈ (l.foldl (fun acc li => dictSetG acc li.fieldName (MValue.int 1))
      d0).map Prod.fst) :
    k' ∈ d0.map Prod.fst ∨ ∃ li, li ∈ l ∧ li.fieldName = k' := by
  induction l generalizing d0 with
  | nil => exact Or.inl h
  | cons x xs ih =>
    rw [List.foldl_cons] at h
    rcases ih (dictSetG d0 x.fieldName (MValue.int 1)) h with h1 | h2
    · rcases dictSetG_keys _ _ _ _ h1 with h3 | h4
      · exact Or.inr ⟨x, List.mem_cons_self _ _, h3.symm⟩
      · exact Or.inl h4
    · obtain ⟨li, hli, hname⟩ := h2
      exact Or.inr ⟨li, List.mem_cons_of_mem _ hli, hname⟩

/-- Every key of the final top-level `$project` stage of
`get_projection_pipeline` belongs to a declared field. -/
theorem getProjectionPipeline_declared_keys (node : Node)
    (desired : List String) (lf ign : Bool) (stages : List Stage)
    (d : List (String × MValue))
    (hok : getProjectionPipeline node desired lf ign = .ok stages)
    (hlast : stages.getLast? = some (Stage.projectQ d)) :
    ∀ kv ∈ d, declaredProjKey node kv.1 := by
  intro kv hkv
  unfold getProjectionPipeline at hok
  dsimp only at hok
  split at hok
  · cases hok
    simp only [List.getLast?, Option.some.injEq] at hlast
    cases hlast
    exact Or.inl (basicProjectionDict_keys _ _ _ hkv)
  · split at hok
    · cases hok
    · cases hok
      rw [List.getLast?_concat] at hlast
      injection hlast with hlast2
      injection hlast2 with hlast3
      subst hlast3
      have hk : kv.1 ∈ (List.foldl
          (fun acc li => dictSetG acc li.fieldName (MValue.int 1))
          (basicProjectionDict node desired.dedup)
          (relevantLinksOf node (fieldsToBeFetchedOf node desired.dedup lf ign))).map
          Prod.fst := List.mem_map_of_mem Prod.fst hkv
      rcases foldl_dictSetG_keys _ _ _ hk with h1 | h2
      · obtain ⟨kv', hkv', hfst⟩ := List.mem_map.mp h1
        obtain ⟨p, hp, hal⟩ := basicProjectionDict_keys _ _ _ hkv'
        exact Or.inl ⟨p, hp, hal.trans hfst⟩
      · obtain ⟨li, hli, hname⟩ := h2
        exact Or.inr ⟨li, (List.mem_filter.mp hli).1, hname⟩

theorem length_filterMap_if_key {β : Type} (c : String → Bool)
    (g : String → Option String → β) (l : List (String × Option String)) :
    (l.filterMap (fun p => if c p.1 then some (g p.1 p.2) else none)).length
      = ((l.map Prod.fst).filter c).length := by
  induction l with
  | nil => rfl
  | cons x xs ih =>
      by_cases h : c x.1 <;>
        simp [List.filterMap_cons, List.filter_cons, h, ih]

theorem filter_names_length_lt (names desiredSet : List String)
    (hnodup : names.Nodup) (hnodupD : desiredSet.Nodup)
    (dBad : String) (hbad : dBad ∈ desiredSet) (hmiss : dBad ∉ names) :
    (names.filter (fun n => desiredSet.contains n)).length < desiredSet.length := by
  have hsubF : (names.filter (fun n => desiredSet.contains n)).toFinset ⊆
      desiredSet.toFinset := by
    intro x hx
    simp only [List.mem_toFinset, List.mem_filter] at hx ⊢
    simpa using hx.2
  have hnotin : dBad ∉ (names.filter (fun n => desiredSet.contains n)).toFinset := by
    simp only [List.mem_toFinset, List.mem_filter]
    exact fun h => hmiss h.1
  have hss : (names.filter (fun n => desiredSet.contains n)).toFinset ⊂
      desiredSet.toFinset :=
    (Finset.ssubset_iff_of_subset hsubF).mpr
      ⟨dBad, List.mem_toFinset.mpr hbad, hnotin⟩
  have hcard := Finset.card_lt_card hss
  rwa [List.toFinset_card_of_nodup (hnodup.filter _),
    List.toFinset_card_of_nodup hnodupD] at hcard

theorem getProjectionView_absent_field_error
    (modelFields : List (String × Option String)) (desired : List String)
    (ua : Bool) (dBad : String)
    (hnodup : (modelFields.map Prod.fst).Nodup)
    (halias : ∀ p ∈ modelFields, ∀ al, p.2 = some al → al ∉ desired)
    (hbad : dBad ∈ desired) (hmiss : dBad ∉ modelFields.map Prod.fst) :
    ∃ msg, getProjectionView modelFields desired false ua =
      .error (.keyError msg) := by
  have hcong : modelFields.filterMap (fun p =>
      if desired.dedup.contains p.1 ||
          (match p.2 with | some a => desired.dedup.contains a | none => false) then
        some (viewProperKey ua p.1 p.2)
      else none) =
    modelFields.filterMap (fun p =>
      if desired.dedup.contains p.1 then some (viewProperKey ua p.1 p.2)
      else none) := by
    apply List.filterMap_congr
    intro p hp
    rcases hal : p.2 with _ | al
    · simp
    · have hni : al ∉ desired.dedup := by
        rw [List.mem_dedup]
        exact halias p hp al hal
      simp [hni]
  have hlt : (viewMatchedKeys modelFields desired.dedup ua).length <
      desired.dedup.length := by
    unfold viewMatchedKeys
    rw [hcong]
    calc (modelFields.filterMap (fun p =>
            if desired.dedup.contains p.1 then some (viewProperKey ua p.1 p.2)
            else none)).dedup.length
        ≤ (modelFields.filterMap (fun p =>
            if desired.dedup.contains p.1 then some (viewProperKey ua p.1 p.2)
            else none)).length := (List.dedup_sublist _).length_le
      _ = ((modelFields.map Prod.fst).filter
            (fun n => desired.dedup.contains n)).length :=
          length_filterMap_if_key _ _ _
      _ < desired.dedup.length :=
          filter_names_length_lt _ _ hnodup (List.nodup_dedup desired) dBad
            (List.mem_dedup.mpr hbad) hmiss
  refine ⟨"field(s) does not exist in the model to include in projection view model.", ?_⟩
  have hne : desired.isEmpty = false := by
    cases desired
    · cases hbad
    · rfl
  unfold getProjectionView
  rw [if_neg (by simp [hne])]
  dsimp only
  simp only [Bool.false_and, Bool.false_eq_true, if_false]
  rw [if_pos (Nat.ne_of_lt hlt)]

/-- Claim C6 (amended): the projection builders never emit a top-level
projection entry for a field absent from the node's declared field set;
`get_projection_pipeline` silently omits absent desired names without
raising, while `get_projection_view` raises the fatal `KeyError` for an
absent name whenever no declared alias shadows the matched-field count
(model field names distinct and no alias among the desired names). -/
theorem projection_declared_fields_and_absent_field_error :
    (∀ (node : Node) (desired : List String) (lf ign : Bool)
        (stages : List Stage) (d : List (String × MValue)),
      getProjectionPipeline node desired lf ign = .ok stages →
      stages.getLast? = some (Stage.projectQ d) →
      ∀ kv ∈ d, declaredProjKey node kv.1) ∧
    (∀ (modelFields : List (String × Option String)) (desired : List String)
        (ua : Bool) (dBad : String),
      (modelFields.map Prod.fst).Nodup →
      (∀ p ∈ modelFields, ∀ al, p.2 = some al → al ∉ desired) →
      dBad ∈ desired → dBad ∉ modelFields.map Prod.fst →
      ∃ msg, getProjectionView modelFields desired false ua =
        .error (.keyError msg)) :=
  ⟨fun node desired lf ign stages d hok hlast =>
      getProjectionPipeline_declared_keys node desired lf ign stages d hok hlast,
   fun mf desired ua dBad h1 h2 h3 h4 =>
      getProjectionView_absent_field_error mf desired ua dBad h1 h2 h3 h4⟩

def c6node : Node :=
  { dbName := "db"
    modelFields := [("id", ⟨"_id", Ann.oidA⟩), ("name", ⟨"name", Ann.normal⟩)] }

/-- Claim C6 counterexample: requesting the absent field `ghost` through
`get_projection_pipeline` raises nothing — the call returns normally with
an empty projection stage, contradicting `requesting a field name absent
from the schema raises a fatal configuration error (for any node/field
combination)`. -/
theorem projection_pipeline_ignores_absent_field :
    getProjectionPipeline c6node ["ghost"] true false =
      .ok [Stage.projectQ []] := by
  rfl

theorem projection_declared_fields_and_absent_field_error_witness :
    (getProjectionPipeline c6node ["name"] true false =
        .ok [Stage.projectQ [("name", MValue.str "$name")]] ∧
      declaredProjKey c6node "name") ∧
    (∃ msg, getProjectionView [("id", none), ("name", none)]
        ["ghost", "name"] false false = .error (.keyError msg)) := by
  refine ⟨⟨by rfl, ?_⟩, ?_⟩
  · exact projection_declared_fields_and_absent_field_error.1 c6node ["name"]
      true false [Stage.projectQ [("name", MValue.str "$name")]]
      [("name", MValue.str "$name")] (by rfl) (by rfl)
      ("name", MValue.str "$name") (by simp)
  · exact projection_declared_fields_and_absent_field_error.2
      [("id", none), ("name", none)] ["ghost", "name"] false "ghost"
      (by simp) (by simp) (by simp) (by simp)

/-! ## Claim C7: existence checks -/

theorem getSetOfObjectIds_ne_nil (inp : IdInput)
    (ht : pyTruthyIdInput inp = true) : getSetOfObjectIds inp ≠ [] := by
  cases inp with
  | one n => simp [getSetOfObjectIds]
  | many l =>
    simp only [pyTruthyIdInput, Bool.not_eq_true'] at ht
    simp only [getSetOfObjectIds, ne_eq, List.dedup_eq_nil]
    intro hl
    rw [hl] at ht
    cases ht

/-- Claim C7: `check_records_existence` normalises its input to a unique
id set and returns exactly the difference between that set and the ids
`find_ids` reports (as a list) when anything is missing, `none` when
nothing is missing — including `none` for `None`/empty input; and
`validate_records_existence` raises the error carrying exactly the
missing ids when the input set is not covered by the found ids, and
returns without error when it is fully covered. -/
theorem check_and_validate_records_existence
    (inp : IdInput) (filters : List (String × MValue))
    (findIdsFn : List (String × MValue) → List Nat)
    (ht : pyTruthyIdInput inp = true) :
    (checkRecordsExistence none filters findIdsFn = none) ∧
    (checkRecordsExistence (some (IdInput.many [])) filters findIdsFn = none) ∧
    (checkRecordsExistence (some inp) filters findIdsFn =
      (let ids := getSetOfObjectIds inp
       let found := (findIdsFn (existenceFilters filters ids)).dedup
       let missing := ids.filter (fun x => !found.contains x)
       if missing.isEmpty then none else some missing)) ∧
    ((∀ x ∈ getSetOfObjectIds inp,
        x ∈ (findIdsFn (existenceFilters filters (getSetOfObjectIds inp))).dedup) →
      validateRecordsExistence (some inp) filters findIdsFn = .ok ()) ∧
    ((∃ x ∈ getSetOfObjectIds inp,
        x ∉ (findIdsFn (existenceFilters filters (getSetOfObjectIds inp))).dedup) →
      validateRecordsExistence (some inp) filters findIdsFn =
        .error ((getSetOfObjectIds inp).filter (fun x =>
          !((findIdsFn (existenceFilters filters (getSetOfObjectIds inp))).dedup.contains
            x)))) := by
  have hids := getSetOfObjectIds_ne_nil inp ht
  have hcheck : checkRecordsExistence (some inp) filters findIdsFn =
      (let ids := getSetOfObjectIds inp
       let found := (findIdsFn (existenceFilters filters ids)).dedup
       let missing := ids.filter (fun x => !found.contains x)
       if missing.isEmpty then none else some missing) := by
    by_cases hfe :
        (findIdsFn (existenceFilters filters (getSetOfObjectIds inp))).dedup = []
    · simp [checkRecordsExistence, ht, hfe, List.isEmpty_iff, hids]
    · simp [checkRecordsExistence, ht, List.isEmpty_iff, hfe]
  refine ⟨rfl, rfl, hcheck, ?_, ?_⟩
  · intro hcov
    have hm : (getSetOfObjectIds inp).filter (fun x =>
        !((findIdsFn (existenceFilters filters (getSetOfObjectIds inp))).dedup.contains
          x)) = [] := by
      rw [List.filter_eq_nil_iff]
      intro x hx
      simp [hcov x hx]
    have hm2 : ((getSetOfObjectIds inp).filter (fun x =>
        !((findIdsFn (existenceFilters filters (getSetOfObjectIds inp))).dedup.contains
          x))).isEmpty = true := by
      rw [hm]
      rfl
    unfold validateRecordsExistence
    rw [hcheck]
    dsimp only
    rw [if_pos hm2]
  · intro hex
    obtain ⟨x, hx, hnx⟩ := hex
    have hm : x ∈ (getSetOfObjectIds inp).filter (fun y =>
        !((findIdsFn (existenceFilters filters (getSetOfObjectIds inp))).dedup.contains
          y)) := by
      rw [List.mem_filter]
      exact ⟨hx, by simpa using hnx⟩
    have hnil : (getSetOfObjectIds inp).filter (fun y =>
        !((findIdsFn (existenceFilters filters (getSetOfObjectIds inp))).dedup.contains
          y)) ≠ [] := by
      intro h
      rw [h] at hm
      cases hm
    have hemp : ¬((getSetOfObjectIds inp).filter (fun y =>
        !((findIdsFn (existenceFilters filters (getSetOfObjectIds inp))).dedup.contains
          y))).isEmpty = true := by
      rw [List.isEmpty_iff]
      exact hnil
    unfold validateRecordsExistence
    rw [hcheck]
    dsimp only
    rw [if_neg hemp]
    dsimp only
    rw [if_neg hemp]

def c7findOne : List (String × MValue) → List Nat := fun _ => [1]

def c7findBoth : List (String × MValue) → List Nat := fun _ => [1, 2]

theorem check_and_validate_records_existence_witness :
    pyTruthyIdInput (IdInput.many [1, 2, 2]) = true ∧
    checkRecordsExistence (some (IdInput.many [1, 2, 2])) [] c7findOne =
      some [2] ∧
    validateRecordsExistence (some (IdInput.many [1, 2, 2])) [] c7findOne =
      .error [2] ∧
    validateRecordsExistence (some (IdInput.many [1, 2, 2])) [] c7findBoth =
      .ok () := by
  have h1 := check_and_validate_records_existence (IdInput.many [1, 2, 2]) []
    c7findOne (by decide)
  have h2 := check_and_validate_records_existence (IdInput.many [1, 2, 2]) []
    c7findBoth (by decide)
  refine ⟨by decide, ?_, ?_, ?_⟩
  · exact (h1.2.2.1).trans (by rfl)
  · exact (h1.2.2.2.2 ⟨2, by decide, by decide⟩).trans (by rfl)
  · exact h2.2.2.2.1 (by decide)

end Scarf
